import Mathlib

/-!
Verification of the in-memory scenario store and comparison engine of
`scenario_planner.py` (a Streamlit budget-planning dashboard).

The embedding follows the source file:
* `load_backend_data` (lines 10-40): `pd.read_excel` wrapped in
  `try ... except FileNotFoundError`, falling back to literal sample tables.
* session-state initialization (lines 513-521): `original_simulation`,
  `scenario_counter = 0`, `saved_scenarios = {"original": simulation}`.
* "Save Scenario" (lines 839-843): increment the counter, name the snapshot
  `f"scenario-{counter}"`, store a copy of the edited table.
* working-copy updates (line 828): `st.session_state["edited_simulation"] = edited_df.copy()`.
* the Scenario Comparison tab (lines 856-953): guard clauses for an empty
  store / empty selection, the per-scenario summary rows and the per-channel
  detail table built by a left merge on `Channel`.

Python numbers in the tables are integers, modelled as `ℤ`; the percent
computation uses true division, modelled in `ℚ`.  A pandas `NaN` cell
(produced by the left merge for a channel absent from a scenario) is
modelled as `Option.none`, and `NaN` propagation through subtraction as
`Option.map`.  A Python `dict` is modelled as an insertion-ordered
association list: assignment to an existing key replaces in place,
assignment to a fresh key appends.
-/

namespace ScenarioPlanner

/-! ### Data model: the three backend tables -/

/-- One row of the `planned` table (source lines 16-21). -/
structure PlannedRow where
  channel : String
  site : String
  planned_budget : ℤ
  expected_cpm : String
deriving DecidableEq

/-- One row of the `recommended` table (source lines 22-29). -/
structure RecommendedRow where
  channel : String
  site : String
  recommended_budget : ℤ
  expected_cpm : String
  ius : ℤ
  roi : ℚ
deriving DecidableEq

/-- One row of the `simulation` table (source lines 30-38), the allocation
table that scenarios snapshot. -/
structure SimRow where
  channel : String
  site : String
  planned_budget : ℤ
  exp_cpm_planned : String
  recommended_budget : ℤ
  desired_budget : ℤ
  exp_cpm_range : String
deriving DecidableEq

/-- An allocation table: the ordered rows of the `simulation` sheet. -/
abbrev SimTable := List SimRow

/-- The dictionary of sheets returned by `load_backend_data`. -/
structure BackendData where
  planned : List PlannedRow
  recommended : List RecommendedRow
  simulation : SimTable
deriving DecidableEq

/-- The literal fallback dataset built in the `except FileNotFoundError`
branch of `load_backend_data` (source lines 15-39). -/
def fallback_data : BackendData where
  planned :=
    [⟨"Display", "NYT", 700000, "$6.5"⟩,
     ⟨"FEP", "FEP_YT", 500000, "$8.5"⟩,
     ⟨"Search", "Search", 300000, "$5.5"⟩,
     ⟨"Social Media", "Facebook", 200000, "$9.5"⟩,
     ⟨"Video", "Youtube", 600000, "6.5"⟩]
  recommended :=
    [⟨"Display", "NYT", 650000, "$6.3 - $6.8", 3500, 3.14⟩,
     ⟨"FEP", "FEP_YT", 520000, "$8.1 - $8.9", 8100, 1.414⟩,
     ⟨"Search", "Search", 350000, "$5.0 - $5.5", 12750, 3.43⟩,
     ⟨"Social Media", "Facebook", 180000, "$9.3 - $10.0", 4000, 3.01⟩,
     ⟨"Video", "Youtube", 450000, "$6.3 - $6.8", 7000, 3.14⟩]
  simulation :=
    [⟨"Display", "NYT", 700000, "$6.5 - $7.0", 650000, 650000, "$6.3 - $6.8"⟩,
     ⟨"FEP", "FEP_YT", 500000, "$8.0 - $8.7", 520000, 500000, "$8.1 - $8.9"⟩,
     ⟨"Search", "Search", 300000, "$5.2 - $5.8", 350000, 350000, "$5.0 - $5.5"⟩,
     ⟨"Social Media", "Facebook", 200000, "$9.1 - $9.8", 180000, 150000, "$9.3 - $10.0"⟩,
     ⟨"Video", "Youtube", 600000, "$6.5 - $7.0", 450000, 450000, "$6.3 - $6.8"⟩]

/-- How `pd.read_excel(filepath, sheet_name=None)` can respond: the workbook
is readable, the file is missing (`FileNotFoundError`), or the file exists
but is unreadable (any other exception, e.g. a corrupt workbook). -/
inductive ReadError where
  | fileNotFound
  | corruptFile
deriving DecidableEq

/-- The workbook source as seen by `pd.read_excel`. -/
inductive Source where
  | ok (d : BackendData)
  | missing
  | corrupt

/-- `pd.read_excel(filepath, sheet_name=None)` (source line 13). -/
def read_excel : Source → Except ReadError BackendData
  | Source.ok d => Except.ok d
  | Source.missing => Except.error ReadError.fileNotFound
  | Source.corrupt => Except.error ReadError.corruptFile

/-- `load_backend_data` (source lines 10-40): `try: pd.read_excel(...)
except FileNotFoundError: <fallback dict>`.  Only `FileNotFoundError` is
caught; any other exception propagates to the caller. -/
def load_backend_data (src : Source) : Except ReadError BackendData :=
  match read_excel src with
  | Except.ok d => Except.ok d
  | Except.error ReadError.fileNotFound => Except.ok fallback_data
  | Except.error e => Except.error e

/-! ### The scenario store (Streamlit session state) -/

/-- A Python `dict` keyed by scenario name, as an insertion-ordered
association list. -/
abbrev ScenarioDict := List (String × SimTable)

/-- `d[k]` lookup: the value at the first (unique) occurrence of key `k`. -/
def dictGet : ScenarioDict → String → Option SimTable
  | [], _ => none
  | (k', v) :: rest, k => if k' = k then some v else dictGet rest k

/-- `d[k] = v` assignment: replace in place if the key exists, else append
(Python dicts preserve insertion order). -/
def dictInsert : ScenarioDict → String → SimTable → ScenarioDict
  | [], k, v => [(k, v)]
  | (k', v') :: rest, k, v =>
    if k' = k then (k, v) :: rest else (k', v') :: dictInsert rest k v

/-- The session state relevant to the scenario store (source lines 513-521
and 722-723). -/
structure SessionState where
  original_simulation : SimTable
  scenario_counter : ℕ
  saved_scenarios : ScenarioDict
  edited_simulation : SimTable
deriving DecidableEq

/-- Session initialization (source lines 513-521 and 722-723): the baseline
is a copy of the loaded `simulation` sheet, the counter starts at 0, and the
store starts holding the `"original"` entry. -/
def init_state (d : BackendData) : SessionState where
  original_simulation := d.simulation
  scenario_counter := 0
  saved_scenarios := [("original", d.simulation)]
  edited_simulation := d.simulation

/-- The name assigned to the scenario saved at counter value `n`:
`f"scenario-{counter}"` (source line 841), with the counter rendered in
decimal. -/
def scenario_name (n : ℕ) : String :=
  "scenario-" ++ Nat.repr n

/-- The "Save Scenario" button handler (source lines 839-843): increment the
counter, form the name, store a copy of the edited table, and report the
assigned name. -/
def save_scenario (s : SessionState) (edited_df : SimTable) : SessionState × String :=
  let counter := s.scenario_counter + 1
  let name := scenario_name counter
  ({ s with
      scenario_counter := counter
      saved_scenarios := dictInsert s.saved_scenarios name edited_df }, name)

/-- A working-copy update (source line 828): the editor writes the edited
rows back to `edited_simulation` only; saved snapshots are not touched. -/
def set_edited (s : SessionState) (t : SimTable) : SessionState :=
  { s with edited_simulation := t }

/-- The session operations that touch the store or the working copy. -/
inductive Op where
  | save (t : SimTable)
  | edit (t : SimTable)

/-- One widget callback. -/
def step (s : SessionState) : Op → SessionState
  | Op.save t => (save_scenario s t).1
  | Op.edit t => set_edited s t

/-- A session: the initial state driven through a sequence of callbacks. -/
def run : SessionState → List Op → SessionState
  | s, [] => s
  | s, op :: rest => run (step s op) rest

/-- A sequence of consecutive "Save Scenario" clicks, recording the names
assigned in order. -/
def run_saves : SessionState → List SimTable → SessionState × List String
  | s, [] => (s, [])
  | s, t :: rest =>
    let p := save_scenario s t
    let q := run_saves p.1 rest
    (q.1, p.2 :: q.2)

/-! ### The comparator (Scenario Comparison tab) -/

/-- One row of the summary table (source lines 881-906).  The baseline row
(lines 886-891) carries no `"Budget Change"` entry, which surfaces as a
missing value in the resulting DataFrame: both change fields are `none`
there.  For scenario rows (lines 894-906) the code formats `budget_change`
and `change_percent` into one display string; per the contract the raw
numerics are modelled. -/
structure SummaryRow where
  scenario : String
  total_budget : ℤ
  budget_change : Option ℤ
  change_percent : Option ℚ
  channel_count : ℕ
  status : String
deriving DecidableEq

/-- `df["Desired Budget"].sum()`. -/
def total_desired (t : SimTable) : ℤ :=
  (t.map (fun r => r.desired_budget)).sum

/-- `(budget_change / original_total) * 100 if original_total > 0 else 0`
(source line 898): Python true division, special-cased on a non-positive
baseline total. -/
def change_percent_calc (budget_change original_total : ℤ) : ℚ :=
  if 0 < original_total then ((budget_change : ℚ) / (original_total : ℚ)) * 100 else 0

/-- The baseline summary row (source lines 884-891). -/
def baseline_row (original_df : SimTable) : SummaryRow where
  scenario := "Original"
  total_budget := total_desired original_df
  budget_change := none
  change_percent := none
  channel_count := original_df.length
  status := "Baseline"

/-- A selected scenario's summary row (source lines 894-906). -/
def summary_row (original_total : ℤ) (name : String) (t : SimTable) : SummaryRow :=
  let scenario_total := total_desired t
  let budget_change := scenario_total - original_total
  { scenario := name
    total_budget := scenario_total
    budget_change := some budget_change
    change_percent := some (change_percent_calc budget_change original_total)
    channel_count := t.length
    status := "Custom" }

/-- The `comparison_data` list (source lines 881-906): the baseline row
first, then one row per selected scenario, in selection order. -/
def comparison_data (original_df : SimTable) (scenarios : List (String × SimTable)) :
    List SummaryRow :=
  baseline_row original_df ::
    scenarios.map (fun p => summary_row (total_desired original_df) p.1 p.2)

/-- One row of the `detailed_comparison` table (source lines 935-951): the
baseline channel and budget, then per selected scenario the
`"<name> Budget"` column from the left merge and the
`"<name> vs Original"` delta column.  `none` models the `NaN` produced when
the scenario's table has no row for this channel. -/
structure DetailRow where
  channel : String
  original_budget : ℤ
  scenario_budgets : List (String × Option ℤ)
  scenario_deltas : List (String × Option ℤ)
deriving DecidableEq

/-- The scenario-side value of the left merge on `"Channel"` (source lines
940-945): the desired budget of the scenario row matching the channel, or a
missing value when there is none. -/
def table_lookup (t : SimTable) (ch : String) : Option ℤ :=
  (t.find? (fun r => r.channel == ch)).map (fun r => r.desired_budget)

/-- The detail row for one baseline channel: merged budgets (lines 938-945)
and the delta columns `scenario budget - original budget` (lines 948-951),
with `NaN` propagating through the subtraction. -/
def detail_row (scenarios : List (String × SimTable)) (r : SimRow) : DetailRow :=
  let budgets := scenarios.map (fun p => (p.1, table_lookup p.2 r.channel))
  { channel := r.channel
    original_budget := r.desired_budget
    scenario_budgets := budgets
    scenario_deltas := budgets.map (fun q => (q.1, q.2.map (fun b => b - r.desired_budget))) }

/-- The `detailed_comparison` table (source lines 935-951): one row per
baseline channel, in baseline order (left-join semantics). -/
def detailed_comparison (original_df : SimTable) (scenarios : List (String × SimTable)) :
    List DetailRow :=
  original_df.map (detail_row scenarios)

/-- What the Scenario Comparison tab renders (source lines 856-953). -/
inductive TabOutcome where
  | noScenariosInfo
  | emptySelectionWarning
  | comparison (summary : List SummaryRow) (detail : List DetailRow)
deriving DecidableEq

/-- The scenario tables for the selected names, in selection order. -/
def selected_tables (s : SessionState) (selected : List String) :
    List (String × SimTable) :=
  selected.filterMap (fun n => (dictGet s.saved_scenarios n).map (fun t => (n, t)))

/-- The Scenario Comparison tab (source lines 856-953): an info message and
early return when the store is empty (lines 859-861), a warning and early
return when no scenario is selected (lines 873-875), otherwise the summary
and detail tables. -/
def scenario_comparison_tab (s : SessionState) (selected : List String) : TabOutcome :=
  if s.saved_scenarios = [] then TabOutcome.noScenariosInfo
  else if selected = [] then TabOutcome.emptySelectionWarning
  else
    TabOutcome.comparison
      (comparison_data s.original_simulation (selected_tables s selected))
      (detailed_comparison s.original_simulation (selected_tables s selected))

/-! ### Validation (§4.1 of the spec) -/

/-- The `channel_cpm_mapping` configured in the simulation tab (source lines
788-819): the allowed `Exp. CPM Range` labels per channel; channels outside
the mapping have no constrained set. -/
def channel_cpm_mapping : String → Option (List String)
  | "Display" => some ["$6.3 - $6.8", "$6.5 - $7.0", "$6.0 - $6.5", "$6.8 - $7.3"]
  | "FEP" => some ["$8.1 - $8.9", "$8.0 - $8.7", "$8.5 - $9.0", "$7.8 - $8.5"]
  | "Search" => some ["$5.0 - $5.5", "$5.2 - $5.8", "$4.8 - $5.3", "$5.5 - $6.0"]
  | "Social Media" => some ["$9.3 - $10.0", "$9.1 - $9.8", "$9.5 - $10.2", "$8.8 - $9.5"]
  | "Video" => some ["$6.3 - $6.8", "$6.5 - $7.0", "$6.0 - $6.5", "$7.0 - $7.5"]
  | _ => none

/-- The validation error taxonomy of §7 of the spec. -/
inductive ValidationError where
  | DuplicateChannel
  | InvalidCPM
deriving DecidableEq

/-- Modelled from the spec: the repository has no `validate` function; this
follows the §4.1 contract `validate(table) -> Result<(), ValidationError>`:
fail with `DuplicateChannel` if channel identifiers are not unique, fail
with `InvalidCPM` if an `expected_cpm_range` value is not a member of the
channel's allowed set when such a set is configured for the channel.  The
allowed sets come from `channel_cpm_mapping` in the source. -/
def validate (allowed : String → Option (List String)) (t : SimTable) :
    Except ValidationError Unit :=
  if (t.map (fun r => r.channel)).Nodup then
    if t.any (fun r =>
        match allowed r.channel with
        | some opts => !(opts.contains r.exp_cpm_range)
        | none => false) then
      Except.error ValidationError.InvalidCPM
    else Except.ok ()
  else Except.error ValidationError.DuplicateChannel

/-! ### Concrete tables used to instantiate the theorems -/

/-- An edited working copy whose desired budgets total 2,020,000: the
fallback simulation with the Display desired budget lowered to 570,000. -/
def budget_2020000_table : SimTable :=
  [⟨"Display", "NYT", 700000, "$6.5 - $7.0", 650000, 570000, "$6.3 - $6.8"⟩,
   ⟨"FEP", "FEP_YT", 500000, "$8.0 - $8.7", 520000, 500000, "$8.1 - $8.9"⟩,
   ⟨"Search", "Search", 300000, "$5.2 - $5.8", 350000, 350000, "$5.0 - $5.5"⟩,
   ⟨"Social Media", "Facebook", 200000, "$9.1 - $9.8", 180000, 150000, "$9.3 - $10.0"⟩,
   ⟨"Video", "Youtube", 600000, "$6.5 - $7.0", 450000, 450000, "$6.3 - $6.8"⟩]

/-- A scenario table whose `Video` row was removed and whose Display desired
budget was edited to 600,000. -/
def missing_video_table : SimTable :=
  [⟨"Display", "NYT", 700000, "$6.5 - $7.0", 650000, 600000, "$6.3 - $6.8"⟩,
   ⟨"FEP", "FEP_YT", 500000, "$8.0 - $8.7", 520000, 500000, "$8.1 - $8.9"⟩,
   ⟨"Search", "Search", 300000, "$5.2 - $5.8", 350000, 350000, "$5.0 - $5.5"⟩,
   ⟨"Social Media", "Facebook", 200000, "$9.1 - $9.8", 180000, 150000, "$9.3 - $10.0"⟩]

/-- The `Video` row of the baseline simulation table. -/
def video_row : SimRow :=
  ⟨"Video", "Youtube", 600000, "$6.5 - $7.0", 450000, 450000, "$6.3 - $6.8"⟩

/-- The `Display` row of the baseline simulation table. -/
def display_row : SimRow :=
  ⟨"Display", "NYT", 700000, "$6.5 - $7.0", 650000, 650000, "$6.3 - $6.8"⟩

/-- A one-row table whose CPM label is not in the Display channel's allowed
set. -/
def bad_cpm_row : SimRow :=
  ⟨"Display", "NYT", 700000, "$6.5 - $7.0", 650000, 650000, "$1.0 - $2.0"⟩

/-- Interpret a most-significant-digit-first decimal character string. -/
def decodeDigits (l : List Char) : ℕ :=
  l.foldl (fun a c => 10 * a + (c.toNat - 48)) 0

/-! ### Decimal rendering: `scenario_name` is injective -/

lemma toDigitsCore_append : ∀ (f n : ℕ) (l : List Char),
    Nat.toDigitsCore 10 f n l = Nat.toDigitsCore 10 f n [] ++ l := by
  intro f
  induction f with
  | zero => intro n l; simp [Nat.toDigitsCore]
  | succ f ih =>
    intro n l
    simp only [Nat.toDigitsCore]
    by_cases h : n / 10 = 0
    · simp [h]
    · simp only [h, if_false]
      rw [ih (n / 10) (Nat.digitChar (n % 10) :: l), ih (n / 10) [Nat.digitChar (n % 10)]]
      simp

lemma toDigitsCore_fuel : ∀ (f1 f2 n : ℕ) (l : List Char), n < f1 → n < f2 →
    Nat.toDigitsCore 10 f1 n l = Nat.toDigitsCore 10 f2 n l := by
  intro f1
  induction f1 with
  | zero => intro f2 n l h1 _; omega
  | succ f ih =>
    intro f2 n l h1 h2
    cases f2 with
    | zero => omega
    | succ g =>
      simp only [Nat.toDigitsCore]
      by_cases h : n / 10 = 0
      · simp [h]
      · simp only [h, if_false]
        have hn : 0 < n := by
          rcases Nat.eq_zero_or_pos n with h0 | h0
          · subst h0; simp at h
          · exact h0
        have hlt : n / 10 < n := Nat.div_lt_self hn (by norm_num)
        exact ih g (n / 10) _ (by omega) (by omega)

lemma toDigits_of_lt (n : ℕ) (h : n < 10) : Nat.toDigits 10 n = [Nat.digitChar n] := by
  simp [Nat.toDigits, Nat.toDigitsCore, Nat.div_eq_of_lt h, Nat.mod_eq_of_lt h]

lemma toDigits_of_ge (n : ℕ) (h : 10 ≤ n) :
    Nat.toDigits 10 n = Nat.toDigits 10 (n / 10) ++ [Nat.digitChar (n % 10)] := by
  have hne : n / 10 ≠ 0 := by
    intro h0
    have := Nat.div_eq_of_lt (show n < 10 by omega)
    omega
  show Nat.toDigitsCore 10 (n + 1) n [] = _
  simp only [Nat.toDigitsCore, hne, if_false]
  have hn : 0 < n := by omega
  have hlt : n / 10 < n := Nat.div_lt_self hn (by norm_num)
  rw [toDigitsCore_fuel n (n / 10 + 1) (n / 10) _ (by omega) (by omega)]
  rw [toDigitsCore_append (n / 10 + 1) (n / 10) [Nat.digitChar (n % 10)]]
  rfl

lemma digitChar_decode : ∀ d, d < 10 → (Nat.digitChar d).toNat - 48 = d := by decide

lemma decodeDigits_go : ∀ n a, (Nat.toDigits 10 n).foldl (fun a c => 10 * a + (c.toNat - 48)) a
    = a * 10 ^ (Nat.toDigits 10 n).length + n := by
  intro n
  induction n using Nat.strong_induction_on with
  | _ n ih =>
    intro a
    by_cases h : n < 10
    · rw [toDigits_of_lt n h]
      simp [digitChar_decode n h]
      ring
    · push_neg at h
      rw [toDigits_of_ge n h]
      have hn : 0 < n := by omega
      have hlt : n / 10 < n := Nat.div_lt_self hn (by norm_num)
      rw [List.foldl_append, ih (n / 10) hlt a]
      simp only [List.foldl_cons, List.foldl_nil, List.length_append, List.length_cons,
        List.length_nil]
      rw [digitChar_decode (n % 10) (Nat.mod_lt n (by norm_num))]
      have heq : 10 * (a * 10 ^ (Nat.toDigits 10 (n / 10)).length + n / 10) + n % 10
          = a * 10 ^ ((Nat.toDigits 10 (n / 10)).length + (0 + 1)) + (10 * (n / 10) + n % 10) := by
        ring
      rw [heq, Nat.div_add_mod]

lemma decodeDigits_toDigits (n : ℕ) : decodeDigits (Nat.toDigits 10 n) = n := by
  unfold decodeDigits
  rw [decodeDigits_go n 0]
  simp

lemma toDigits_injective {m n : ℕ} (h : Nat.toDigits 10 m = Nat.toDigits 10 n) : m = n := by
  have := congrArg decodeDigits h
  rwa [decodeDigits_toDigits, decodeDigits_toDigits] at this

lemma repr_data (n : ℕ) : (Nat.repr n).data = Nat.toDigits 10 n := rfl

lemma scenario_name_injective {m n : ℕ} (h : scenario_name m = scenario_name n) : m = n := by
  have hd := congrArg String.data h
  simp only [scenario_name, String.data_append, repr_data] at hd
  exact toDigits_injective (List.append_cancel_left hd)

lemma scenario_name_ne_original (n : ℕ) : scenario_name n ≠ "original" := by
  intro h
  have hd := congrArg String.data h
  simp only [scenario_name, String.data_append] at hd
  simp at hd

/-! ### Dictionary lemmas -/

lemma dictGet_insert_self : ∀ (d : ScenarioDict) (k : String) (v : SimTable),
    dictGet (dictInsert d k v) k = some v := by
  intro d k v
  induction d with
  | nil => simp [dictInsert, dictGet]
  | cons p rest ih =>
    obtain ⟨k', v'⟩ := p
    by_cases h : k' = k
    · simp [dictInsert, dictGet, h]
    · simp [dictInsert, dictGet, h, ih]

lemma dictGet_insert_of_ne : ∀ (d : ScenarioDict) (k k' : String) (v : SimTable), k ≠ k' →
    dictGet (dictInsert d k v) k' = dictGet d k' := by
  intro d k k' v hne
  induction d with
  | nil => simp [dictInsert, dictGet, hne]
  | cons p rest ih =>
    obtain ⟨k0, v0⟩ := p
    by_cases h : k0 = k
    · subst h
      simp [dictInsert, dictGet, hne]
    · simp [dictInsert, dictGet, h, ih]

lemma dictInsert_of_not_mem : ∀ (d : ScenarioDict) (k : String) (v : SimTable),
    k ∉ d.map Prod.fst → dictInsert d k v = d ++ [(k, v)] := by
  intro d k v hk
  induction d with
  | nil => simp [dictInsert]
  | cons p rest ih =>
    obtain ⟨k0, v0⟩ := p
    simp only [List.map_cons, List.mem_cons] at hk
    push_neg at hk
    have h0 : k0 ≠ k := fun h => hk.1 h.symm
    simp [dictInsert, h0, ih hk.2]

lemma dictGet_mem_keys : ∀ (d : ScenarioDict) (k : String) (v : SimTable),
    dictGet d k = some v → k ∈ d.map Prod.fst := by
  intro d k v h
  induction d with
  | nil => simp [dictGet] at h
  | cons p rest ih =>
    obtain ⟨k0, v0⟩ := p
    by_cases h0 : k0 = k
    · simp [h0]
    · simp only [dictGet, h0, if_false] at h
      simp [ih h]

lemma dictGet_ne_nil {d : ScenarioDict} {k : String} {v : SimTable}
    (h : dictGet d k = some v) : d ≠ [] := by
  intro hnil
  subst hnil
  simp [dictGet] at h

/-! ### Session runs -/

lemma run_get_original : ∀ (ops : List Op) (s : SessionState) (v : SimTable),
    dictGet s.saved_scenarios "original" = some v →
    dictGet (run s ops).saved_scenarios "original" = some v := by
  intro ops
  induction ops with
  | nil => intro s v h; exact h
  | cons op rest ih =>
    intro s v h
    cases op with
    | save t =>
      apply ih
      show dictGet
        (dictInsert s.saved_scenarios (scenario_name (s.scenario_counter + 1)) t)
        "original" = some v
      rw [dictGet_insert_of_ne _ _ _ _ (scenario_name_ne_original _)]
      exact h
    | edit t => exact ih _ v h

lemma run_saves_spec : ∀ (ts : List SimTable) (s : SessionState),
    (∀ k ∈ s.saved_scenarios.map Prod.fst, ∀ m : ℕ, s.scenario_counter < m →
        k ≠ scenario_name m) →
    (run_saves s ts).2
        = (List.range ts.length).map (fun i => scenario_name (s.scenario_counter + i + 1))
    ∧ (run_saves s ts).1.scenario_counter = s.scenario_counter + ts.length
    ∧ (run_saves s ts).1.saved_scenarios.map Prod.fst
        = s.saved_scenarios.map Prod.fst ++ (run_saves s ts).2 := by
  intro ts
  induction ts with
  | nil => intro s _; exact ⟨rfl, rfl, by simp [run_saves]⟩
  | cons t rest ih =>
    intro s hfresh
    have hnotmem : scenario_name (s.scenario_counter + 1) ∉ s.saved_scenarios.map Prod.fst := by
      intro hmem
      exact hfresh _ hmem (s.scenario_counter + 1) (by omega) rfl
    have hins : dictInsert s.saved_scenarios (scenario_name (s.scenario_counter + 1)) t
        = s.saved_scenarios ++ [(scenario_name (s.scenario_counter + 1), t)] :=
      dictInsert_of_not_mem _ _ _ hnotmem
    have hkeys : (save_scenario s t).1.saved_scenarios.map Prod.fst
        = s.saved_scenarios.map Prod.fst ++ [scenario_name (s.scenario_counter + 1)] := by
      show (dictInsert s.saved_scenarios (scenario_name (s.scenario_counter + 1)) t).map
            Prod.fst = _
      rw [hins]
      simp
    have hfresh' : ∀ k ∈ (save_scenario s t).1.saved_scenarios.map Prod.fst,
        ∀ m : ℕ, (save_scenario s t).1.scenario_counter < m → k ≠ scenario_name m := by
      intro k hk m hm
      rw [hkeys] at hk
      have hm' : s.scenario_counter + 1 < m := hm
      rcases List.mem_append.mp hk with hk1 | hk2
      · exact hfresh k hk1 m (by omega)
      · have hkeq : k = scenario_name (s.scenario_counter + 1) := by simpa using hk2
        subst hkeq
        intro heq
        have := scenario_name_injective heq
        omega
    obtain ⟨ih1, ih2, ih3⟩ := ih (save_scenario s t).1 hfresh'
    have hcount : (save_scenario s t).1.scenario_counter = s.scenario_counter + 1 := rfl
    refine ⟨?_, ?_, ?_⟩
    · show (save_scenario s t).2 :: (run_saves (save_scenario s t).1 rest).2 = _
      rw [ih1, hcount]
      simp only [List.length_cons, List.range_succ_eq_map, List.map_cons, List.map_map]
      have hfun : ((fun i => scenario_name (s.scenario_counter + i + 1)) ∘ Nat.succ)
          = (fun i => scenario_name (s.scenario_counter + 1 + i + 1)) := by
        funext i
        simp only [Function.comp]
        congr 1
        omega
      rw [hfun]
      congr 1
    · show (run_saves (save_scenario s t).1 rest).1.scenario_counter = _
      rw [ih2, hcount]
      simp [List.length_cons]
      omega
    · show (run_saves (save_scenario s t).1 rest).1.saved_scenarios.map Prod.fst = _
      rw [ih3, hkeys]
      show _ = s.saved_scenarios.map Prod.fst
          ++ ((save_scenario s t).2 :: (run_saves (save_scenario s t).1 rest).2)
      simp
      rfl

/-! ### The claims -/

/-- C1: saving a working copy and then retrieving the stored scenario under
the returned name yields exactly the table passed to save, and a subsequent
mutation of the working copy (which does change the editor state, third
conjunct) does not change what the store returns for that name: the snapshot
is independent of live editor state. -/
theorem save_then_get_snapshot_independent (s : SessionState) (t t' : SimTable) :
    dictGet (save_scenario s t).1.saved_scenarios (save_scenario s t).2 = some t
    ∧ dictGet (set_edited (save_scenario s t).1 t').saved_scenarios
        (save_scenario s t).2 = some t
    ∧ (set_edited (save_scenario s t).1 t').edited_simulation = t' := by
  refine ⟨?_, ?_, rfl⟩
  · exact dictGet_insert_self _ _ _
  · exact dictGet_insert_self _ _ _

/-- C2: in a session started from a freshly initialized state (counter 0),
the `k` successive saves are assigned the names `scenario-1`, ...,
`scenario-k` in order; these names are pairwise distinct, and the store's
key sequence after the saves is `"original"` followed by exactly those
names (so no save ever overwrote or reused an existing name), and the key
sequence has no duplicates. -/
theorem save_names_distinct_and_sequential (d : BackendData) (ts : List SimTable) :
    (init_state d).scenario_counter = 0
    ∧ (run_saves (init_state d) ts).2
        = (List.range ts.length).map (fun i => scenario_name (i + 1))
    ∧ scenario_name 1 = "scenario-1"
    ∧ scenario_name 2 = "scenario-2"
    ∧ (run_saves (init_state d) ts).2.Nodup
    ∧ (run_saves (init_state d) ts).1.saved_scenarios.map Prod.fst
        = "original" :: (run_saves (init_state d) ts).2
    ∧ ((run_saves (init_state d) ts).1.saved_scenarios.map Prod.fst).Nodup := by
  have hfresh : ∀ k ∈ (init_state d).saved_scenarios.map Prod.fst,
      ∀ m : ℕ, (init_state d).scenario_counter < m → k ≠ scenario_name m := by
    intro k hk m _
    have : k = "original" := by simpa [init_state] using hk
    subst this
    exact fun h => scenario_name_ne_original m h.symm
  obtain ⟨h1, _, h3⟩ := run_saves_spec ts (init_state d) hfresh
  have hzero : (init_state d).scenario_counter = 0 := rfl
  have hnames : (run_saves (init_state d) ts).2
      = (List.range ts.length).map (fun i => scenario_name (i + 1)) := by
    rw [h1, hzero]
    simp
  have hinj : Function.Injective (fun i : ℕ => scenario_name (i + 1)) := by
    intro a b hab
    have := scenario_name_injective hab
    omega
  have hnodup : (run_saves (init_state d) ts).2.Nodup := by
    rw [hnames]
    exact (List.nodup_range ts.length).map hinj
  have hkeys : (run_saves (init_state d) ts).1.saved_scenarios.map Prod.fst
      = "original" :: (run_saves (init_state d) ts).2 := by
    rw [h3]
    simp [init_state]
  refine ⟨rfl, hnames, rfl, rfl, hnodup, hkeys, ?_⟩
  rw [hkeys]
  refine List.nodup_cons.mpr ⟨?_, hnodup⟩
  rw [hnames]
  intro hmem
  obtain ⟨i, _, hi⟩ := List.mem_map.mp hmem
  exact scenario_name_ne_original (i + 1) hi

/-- C6 counterexample: loading from an unreadable (corrupt) workbook does
not return a usable set of tables — the error surfaces to the caller, so
the load operation is not total over all sources. -/
theorem load_corrupt_surfaces_error :
    load_backend_data Source.corrupt = Except.error ReadError.corruptFile
    ∧ ¬ ∃ d, load_backend_data Source.corrupt = Except.ok d := by
  refine ⟨rfl, ?_⟩
  rintro ⟨d, hd⟩
  simp [load_backend_data, read_excel] at hd

/-- C6 (amended): the load operation never fails the caller for a readable
or missing workbook — a missing file (`FileNotFoundError`) is recovered
locally by substituting the built-in sample dataset — but an unreadable
(corrupt) workbook's error propagates to the caller, since only
`FileNotFoundError` is caught. -/
theorem load_missing_recovers_with_fallback :
    load_backend_data Source.missing = Except.ok fallback_data
    ∧ (∀ d, load_backend_data (Source.ok d) = Except.ok d)
    ∧ load_backend_data Source.corrupt = Except.error ReadError.corruptFile :=
  ⟨rfl, fun _ => rfl, rfl⟩

/-- C7: loading from a nonexistent source path yields the documented
5-channel fallback table: channels exactly `Display, FEP, Search,
Social Media, Video`, planned budgets exactly
`[700000, 500000, 300000, 200000, 600000]`, in that order. -/
theorem load_fallback_literal_values :
    load_backend_data Source.missing = Except.ok fallback_data
    ∧ fallback_data.planned.map (fun r => r.channel)
        = ["Display", "FEP", "Search", "Social Media", "Video"]
    ∧ fallback_data.planned.map (fun r => r.planned_budget)
        = [700000, 500000, 300000, 200000, 600000] := by
  refine ⟨rfl, by decide, by decide⟩

/-- C8: in any initialized session, requesting the comparison tab with zero
scenarios selected yields the user-actionable warning outcome — not a
crash, and no comparison is produced. -/
theorem empty_selection_yields_warning (d : BackendData) (ops : List Op) :
    scenario_comparison_tab (run (init_state d) ops) []
      = TabOutcome.emptySelectionWarning := by
  have h := run_get_original ops (init_state d) d.simulation (by simp [init_state, dictGet])
  have hne := dictGet_ne_nil h
  simp [scenario_comparison_tab, hne]

/-- C3: for every baseline and non-empty selection, the summary's first row
is the baseline row, labeled `Original` / `Baseline` with both change
fields absent, and every following row is labeled `Custom` with both change
fields present; on the documented instance (the fallback baseline totals
2,100,000; a scenario totals 2,020,000) the scenario's summary row reports
a delta of -80,000 and a percent change of -80/21, within 0.01 of -3.81. -/
theorem comparison_summary_baseline_and_deltas
    (baseline : SimTable) (scenarios : List (String × SimTable))
    (name : String) (t : SimTable)
    (hne : scenarios ≠ []) (ht : total_desired t = 2020000) :
    (comparison_data baseline scenarios).head? = some (baseline_row baseline)
    ∧ (baseline_row baseline).scenario = "Original"
    ∧ (baseline_row baseline).status = "Baseline"
    ∧ (baseline_row baseline).budget_change = none
    ∧ (baseline_row baseline).change_percent = none
    ∧ (∀ r ∈ (comparison_data baseline scenarios).tail,
        r.status = "Custom" ∧ r.budget_change.isSome ∧ r.change_percent.isSome)
    ∧ total_desired fallback_data.simulation = 2100000
    ∧ (comparison_data fallback_data.simulation [(name, t)])[1]?
        = some (summary_row 2100000 name t)
    ∧ (summary_row 2100000 name t).budget_change = some (-80000)
    ∧ (summary_row 2100000 name t).change_percent = some (-80 / 21)
    ∧ |(-80 / 21 : ℚ) - (-381 / 100)| < 1 / 100 := by
  have htot : total_desired fallback_data.simulation = 2100000 := by decide
  refine ⟨rfl, rfl, rfl, rfl, rfl, ?_, htot, ?_, ?_, ?_, ?_⟩
  · intro r hr
    simp only [comparison_data, List.tail_cons] at hr
    obtain ⟨p, _, rfl⟩ := List.mem_map.mp hr
    exact ⟨rfl, rfl, rfl⟩
  · show (baseline_row fallback_data.simulation
        :: [summary_row (total_desired fallback_data.simulation) name t])[1]?
      = some (summary_row 2100000 name t)
    rw [htot]
    rfl
  · have hb : (summary_row 2100000 name t).budget_change
        = some (total_desired t - 2100000) := rfl
    rw [hb, ht]
    decide
  · have hc : (summary_row 2100000 name t).change_percent
        = some (change_percent_calc (total_desired t - 2100000) 2100000) := rfl
    rw [hc, ht]
    have hv : change_percent_calc (2020000 - 2100000) 2100000 = -80 / 21 := by
      unfold change_percent_calc
      rw [if_pos (by norm_num : (0 : ℤ) < 2100000)]
      push_cast
      norm_num
    rw [hv]
  · rw [abs_lt]
    constructor <;> norm_num

/-- C3 witness: the documented instance, concretely. -/
theorem comparison_summary_baseline_and_deltas_witness :
    (comparison_data fallback_data.simulation
        [("scenario-1", budget_2020000_table)]).head?
      = some (baseline_row fallback_data.simulation)
    ∧ (baseline_row fallback_data.simulation).scenario = "Original"
    ∧ (baseline_row fallback_data.simulation).status = "Baseline"
    ∧ (baseline_row fallback_data.simulation).budget_change = none
    ∧ (baseline_row fallback_data.simulation).change_percent = none
    ∧ (∀ r ∈ (comparison_data fallback_data.simulation
        [("scenario-1", budget_2020000_table)]).tail,
        r.status = "Custom" ∧ r.budget_change.isSome ∧ r.change_percent.isSome)
    ∧ total_desired fallback_data.simulation = 2100000
    ∧ (comparison_data fallback_data.simulation
        [("scenario-1", budget_2020000_table)])[1]?
        = some (summary_row 2100000 "scenario-1" budget_2020000_table)
    ∧ (summary_row 2100000 "scenario-1" budget_2020000_table).budget_change
        = some (-80000)
    ∧ (summary_row 2100000 "scenario-1" budget_2020000_table).change_percent
        = some (-80 / 21)
    ∧ |(-80 / 21 : ℚ) - (-381 / 100)| < 1 / 100 :=
  comparison_summary_baseline_and_deltas fallback_data.simulation
    [("scenario-1", budget_2020000_table)] "scenario-1" budget_2020000_table
    (by decide) (by decide)

/-- C4: the percent-change computation is a total function: for a positive
baseline total it is delta / baseline_total * 100 (and genuinely the ratio:
multiplying back by the total recovers delta * 100); for a zero baseline
total it is 0 rather than a division error; and the summary row's percent
field is exactly this function applied to the scenario delta and baseline
total. -/
theorem change_percent_total_function (name : String) (t : SimTable)
    (delta total : ℤ) (h : 0 < total) :
    change_percent_calc delta total = ((delta : ℚ) / (total : ℚ)) * 100
    ∧ change_percent_calc delta total * (total : ℚ) = (delta : ℚ) * 100
    ∧ change_percent_calc delta 0 = 0
    ∧ (summary_row total name t).change_percent
        = some (change_percent_calc (total_desired t - total) total) := by
  have h1 : change_percent_calc delta total = ((delta : ℚ) / (total : ℚ)) * 100 := by
    unfold change_percent_calc
    rw [if_pos h]
  refine ⟨h1, ?_, ?_, rfl⟩
  · rw [h1]
    have htq : ((total : ℚ)) ≠ 0 := Int.cast_ne_zero.mpr (by omega)
    field_simp
  · unfold change_percent_calc
    rw [if_neg (lt_irrefl 0)]

/-- C4 witness: the computation at delta 1 against baseline total 2. -/
theorem change_percent_total_function_witness :
    change_percent_calc 1 2 = (((1 : ℤ) : ℚ) / ((2 : ℤ) : ℚ)) * 100
    ∧ change_percent_calc 1 2 * ((2 : ℤ) : ℚ) = ((1 : ℤ) : ℚ) * 100
    ∧ change_percent_calc 1 0 = 0
    ∧ (summary_row 2 "scenario-1" []).change_percent
        = some (change_percent_calc (total_desired [] - 2) 2) :=
  change_percent_total_function "scenario-1" [] 1 2 (by decide)

/-- C5: every baseline channel contributes a detail row; for a selected
scenario the row carries the merged budget entry, and: when the scenario's
table has the channel with budget b, the delta entry is exactly
some (b - baseline budget); when the channel is absent from the scenario's
table, both the budget entry and the delta entry are the missing value —
never zero and never the negated baseline budget. -/
theorem detail_deltas_exact_and_missing
    (original : SimTable) (scenarios : List (String × SimTable))
    (name : String) (t : SimTable) (r : SimRow)
    (hr : r ∈ original) (hmem : (name, t) ∈ scenarios) :
    detail_row scenarios r ∈ detailed_comparison original scenarios
    ∧ (name, table_lookup t r.channel) ∈ (detail_row scenarios r).scenario_budgets
    ∧ (∀ b, table_lookup t r.channel = some b →
        (name, some (b - r.desired_budget)) ∈ (detail_row scenarios r).scenario_deltas)
    ∧ (table_lookup t r.channel = none →
        (name, (none : Option ℤ)) ∈ (detail_row scenarios r).scenario_budgets
        ∧ (name, (none : Option ℤ)) ∈ (detail_row scenarios r).scenario_deltas) := by
  have hbud : (name, table_lookup t r.channel) ∈ (detail_row scenarios r).scenario_budgets :=
    List.mem_map_of_mem (fun p => (p.1, table_lookup p.2 r.channel)) hmem
  have hdel : (name, (table_lookup t r.channel).map (fun b => b - r.desired_budget))
      ∈ (detail_row scenarios r).scenario_deltas :=
    List.mem_map_of_mem
      (fun q : String × Option ℤ => (q.1, q.2.map (fun b => b - r.desired_budget))) hbud
  refine ⟨List.mem_map_of_mem (detail_row scenarios) hr, hbud, ?_, ?_⟩
  · intro b hb
    rw [hb] at hdel
    simpa using hdel
  · intro hnone
    rw [hnone] at hbud hdel
    exact ⟨hbud, by simpa using hdel⟩

/-- C5 witness: against the fallback baseline, a scenario table missing the
`Video` channel yields missing budget and delta entries for `Video`, and for
the present `Display` channel (edited to 600,000 against a baseline of
650,000) the delta entry is exactly some (600000 - 650000). -/
theorem detail_deltas_exact_and_missing_witness :
    (("scenario-1", (none : Option ℤ))
        ∈ (detail_row [("scenario-1", missing_video_table)] video_row).scenario_budgets
      ∧ ("scenario-1", (none : Option ℤ))
        ∈ (detail_row [("scenario-1", missing_video_table)] video_row).scenario_deltas)
    ∧ ("scenario-1", some ((600000 : ℤ) - 650000))
        ∈ (detail_row [("scenario-1", missing_video_table)] display_row).scenario_deltas := by
  have h1 := detail_deltas_exact_and_missing fallback_data.simulation
    [("scenario-1", missing_video_table)] "scenario-1" missing_video_table video_row
    (by decide) (by decide)
  have h2 := detail_deltas_exact_and_missing fallback_data.simulation
    [("scenario-1", missing_video_table)] "scenario-1" missing_video_table display_row
    (by decide) (by decide)
  exact ⟨h1.2.2.2 (by decide), h2.2.2.1 600000 (by decide)⟩

/-- The Boolean CPM check used by `validate`, as a proposition. -/
lemma bad_cpm_iff (allowed : String → Option (List String)) (c x : String) :
    ((match allowed c with
      | some opts => !(opts.contains x)
      | none => false) = true)
    ↔ ∃ opts, allowed c = some opts ∧ x ∉ opts := by
  cases ha : allowed c with
  | none => simp
  | some opts => simp [List.elem_iff]

/-- C9: `validate` fails with `DuplicateChannel` exactly when the channel
identifiers are not unique, and (channels being unique) fails with
`InvalidCPM` exactly when some row's CPM label is outside its channel's
configured allowed set; both failures are returned to the caller. -/
theorem validate_duplicate_and_invalid_cpm
    (allowed : String → Option (List String)) (t : SimTable) :
    (validate allowed t = Except.error ValidationError.DuplicateChannel
      ↔ ¬ (t.map (fun r => r.channel)).Nodup)
    ∧ ((t.map (fun r => r.channel)).Nodup →
      (validate allowed t = Except.error ValidationError.InvalidCPM
        ↔ ∃ r ∈ t, ∃ opts, allowed r.channel = some opts ∧ r.exp_cpm_range ∉ opts)) := by
  constructor
  · by_cases h : (t.map (fun r => r.channel)).Nodup
    · simp only [validate, if_pos h]
      constructor
      · intro he
        split at he <;> simp_all
      · intro hc
        exact absurd h hc
    · simp only [validate, if_neg h]
      simp [h]
  · intro h
    simp only [validate, if_pos h]
    by_cases hb : (t.any fun r =>
        match allowed r.channel with
        | some opts => !(opts.contains r.exp_cpm_range)
        | none => false) = true
    · rw [if_pos hb]
      constructor
      · intro _
        obtain ⟨r, hrmem, hrp⟩ := List.any_eq_true.mp hb
        exact ⟨r, hrmem, (bad_cpm_iff allowed r.channel r.exp_cpm_range).mp hrp⟩
      · intro _
        rfl
    · rw [if_neg hb]
      constructor
      · intro he
        simp at he
      · rintro ⟨r, hrmem, opts, hopts, hnot⟩
        exact absurd (List.any_eq_true.mpr
          ⟨r, hrmem, (bad_cpm_iff allowed r.channel r.exp_cpm_range).mpr
            ⟨opts, hopts, hnot⟩⟩) hb

/-- C9 witness: a duplicate-free one-row table whose Display CPM label is
outside the configured Display set fails with `InvalidCPM`. -/
theorem validate_duplicate_and_invalid_cpm_witness :
    validate channel_cpm_mapping [bad_cpm_row] = Except.error ValidationError.InvalidCPM := by
  have h := validate_duplicate_and_invalid_cpm channel_cpm_mapping [bad_cpm_row]
  exact (h.2 (by decide)).mpr
    ⟨bad_cpm_row, by decide,
      ["$6.3 - $6.8", "$6.5 - $7.0", "$6.0 - $6.5", "$6.8 - $7.3"], by decide, by decide⟩

/-- C10: after initialization and any sequence of saves and edits, the store
still maps `"original"` to the baseline simulation table, is never empty,
offers `"original"` among the selectable scenario names, and the comparison
tab's `no scenarios saved yet` branch is unreachable. -/
theorem original_entry_always_present (d : BackendData) (ops : List Op)
    (selected : List String) :
    dictGet (run (init_state d) ops).saved_scenarios "original" = some d.simulation
    ∧ (run (init_state d) ops).saved_scenarios ≠ []
    ∧ "original" ∈ (run (init_state d) ops).saved_scenarios.map Prod.fst
    ∧ scenario_comparison_tab (run (init_state d) ops) selected
        ≠ TabOutcome.noScenariosInfo := by
  have h := run_get_original ops (init_state d) d.simulation (by simp [init_state, dictGet])
  have hne := dictGet_ne_nil h
  refine ⟨h, hne, dictGet_mem_keys _ _ _ h, ?_⟩
  simp only [scenario_comparison_tab, if_neg hne]
  split <;> simp

end ScenarioPlanner
